import Mathlib

/-!
Shallow embedding of two presentation-layer fragments of the
azuredatastudio repository:

* the account actions (`AddAccountAction`, `RemoveAccountAction`,
  `ApplyFilterAction`, `RefreshAccountAction`) from the account
  management view, and
* the dashboard `WebviewWidget` component
  (`src/sql/parts/dashboard/widgets/webview/webviewWidget.component.ts`).

The JavaScript code is single-threaded and event-loop driven; each
`run()` invocation performs one asynchronous delegation whose callbacks
run in a deterministic order.  We therefore embed each `run()` as a pure
function from the (mocked) behaviour of the injected collaborator
services to the pair of

* the ordered trace of observable events (emitter firings, service
  invocations, notifications), and
* the settlement of the returned promise, as an `Except` value
  (`Except.ok` = the promise resolves, `Except.error` = it rejects).
-/

/-- Model of `azdata.Account.displayInfo`: only `displayName` is read by this code. -/
structure DisplayInfo where
  displayName : String
deriving DecidableEq, Repr

/-- Model of `azdata.Account`: the fields this excerpt reads (`key`,
`displayInfo.displayName`).  `key` is the opaque account key passed to
`removeAccount`. -/
structure Account where
  key : String
  displayInfo : DisplayInfo
deriving DecidableEq, Repr

/-- Model of `vs/base/common/severity`: severity levels of a notification. -/
inductive Severity where
  | ignore
  | info
  | warning
  | error
deriving DecidableEq, Repr

/-- One observable event of an action `run()` invocation, in firing
order: emitter firings, delegated service invocations, and
notifications. -/
inductive Ev where
  /-- firing of `_addAccountStartEmitter` -/
  | start
  /-- firing of `_addAccountCompleteEmitter` -/
  | complete
  /-- firing of `_addAccountErrorEmitter` with payload `err` -/
  | errorEvt (err : String)
  /-- invocation of `accountManagementService.addAccount(providerId)` -/
  | addAccountCall (providerId : String)
  /-- invocation of `dialogService.confirm(...)` with the message built
  from the account's display name -/
  | confirmCall (displayName : String)
  /-- invocation of `accountManagementService.removeAccount(key)` -/
  | removeAccountCall (key : String)
  /-- call to `notificationService.notify` with the given severity and message -/
  | notifyCall (severity : Severity) (message : String)
  /-- invocation of `accountManagementService.refreshAccount(account)` -/
  | refreshAccountCall (account : Account)
deriving DecidableEq, Repr

/-- Mocked behaviour of the injected `IAccountManagementService`: for
each operation, the settlement of the promise it returns
(`Except.ok` = resolves, `Except.error` = rejects with that error
message). -/
structure AccountManagementService where
  addAccount : String → Except String Unit
  removeAccount : String → Except String Bool
  refreshAccount : Account → Except String Unit

/-- Embedding of `AddAccountAction.run()`:

```ts
this._addAccountStartEmitter.fire();
return new Promise((resolve, reject) => {
  self._accountManagementService.addAccount(self._providerId).then(
    () => { self._addAccountCompleteEmitter.fire(); resolve(true); },
    err => { error(...); self._addAccountErrorEmitter.fire(err);
             self._addAccountCompleteEmitter.fire(); reject(err); });
});
```

The promise executor runs synchronously, so `start` is followed at once
by the `addAccount` invocation; the settlement callbacks run when that
promise settles. -/
def AddAccountAction.run (providerId : String)
    (svc : AccountManagementService) : List Ev × Except String Bool :=
  match svc.addAccount providerId with
  | Except.ok _ =>
      ([Ev.start, Ev.addAccountCall providerId, Ev.complete],
       Except.ok true)
  | Except.error err =>
      ([Ev.start, Ev.addAccountCall providerId, Ev.errorEvt err,
        Ev.complete],
       Except.error err)

/-- The localized message `removeAccountFailed` shown by
`RemoveAccountAction` when the remove operation rejects. -/
def removeAccountFailedMessage : String := "Failed to remove account"

/-- Embedding of `RemoveAccountAction.run()`:

```ts
return this._dialogService.confirm(confirm).then(result => {
  if (!result) { return Promise.resolve(false); }
  else {
    return new Promise((resolve, reject) => {
      self._accountManagementService.removeAccount(self._account.key).then(
        (result) => { resolve(result); },
        (err) => { self._notificationService.notify({severity: Severity.Error,
                     message: localize(..., 'Failed to remove account')});
                   resolve(false); });
    });
  }
});
```

`confirmResult` is the boolean the dialog service's `confirm` promise
resolves to. -/
def RemoveAccountAction.run (account : Account) (confirmResult : Bool)
    (svc : AccountManagementService) : List Ev × Except String Bool :=
  if !confirmResult then
    ([Ev.confirmCall account.displayInfo.displayName], Except.ok false)
  else
    match svc.removeAccount account.key with
    | Except.ok result =>
        ([Ev.confirmCall account.displayInfo.displayName,
          Ev.removeAccountCall account.key],
         Except.ok result)
    | Except.error _ =>
        ([Ev.confirmCall account.displayInfo.displayName,
          Ev.removeAccountCall account.key,
          Ev.notifyCall Severity.error removeAccountFailedMessage],
         Except.ok false)

/-- Embedding of `ApplyFilterAction.run()`: placeholder, always resolves `true` with
no effect. -/
def ApplyFilterAction.run : List Ev × Except String Bool :=
  ([], Except.ok true)

/-- The localized message `NoAccountToRefresh`. -/
def noAccountToRefreshMessage : String := "There is no account to refresh"

/-- Embedding of `RefreshAccountAction.run()`:

```ts
return new Promise((resolve, reject) => {
  if (self.account) {
    self._accountManagementService.refreshAccount(self.account).then(
      () => { resolve(true); },
      err => { error(...); reject(err); });
  } else {
    let errorMessage = localize('NoAccountToRefresh', 'There is no account to refresh');
    reject(errorMessage);
  }
});
```

The mutable public field `account` is modelled as the `Option Account`
argument (`none` = never assigned / undefined, which is falsy). -/
def RefreshAccountAction.run (account : Option Account)
    (svc : AccountManagementService) : List Ev × Except String Bool :=
  match account with
  | some a =>
      match svc.refreshAccount a with
      | Except.ok _ => ([Ev.refreshAccountCall a], Except.ok true)
      | Except.error err => ([Ev.refreshAccountCall a], Except.error err)
  | none => ([], Except.error noAccountToRefreshMessage)

/-!
Embedding of the `WebviewWidget` component.  The widget owns a content
surface (`WebviewElement`) and a message subscription; both are modelled
by numeric identifiers, with `nextId` supplying a fresh identifier for
each created surface (the subscription created for a surface carries the
surface's identifier).  Every method is embedded as a function from the
widget's state to the new state together with the ordered trace of
operations it performs on its collaborators.
-/

/-- One observable operation the widget performs on its collaborators,
in execution order. -/
inductive WOp where
  /-- call to `dashboardViewService.registerWebview(this)` -/
  | registerWebview
  /-- call to `instantiationService.createInstance(WebviewElement, ...)`
  producing surface `sid`, bound to the editor part container with
  `allowScripts: true` -/
  | createSurface (sid : Nat)
  /-- call to `webview.mountTo(this._el.nativeElement)` -/
  | mount (sid : Nat)
  /-- call to `webview.onMessage(e => this._onMessage.fire(e))`,
  creating the message subscription of surface `sid` -/
  | subscribe (sid : Nat)
  /-- call to `webview.style(this.themeService.getTheme())` -/
  | style (sid : Nat)
  /-- assignment `webview.contents = html` -/
  | setContents (sid : Nat) (html : String)
  /-- call to `webview.layout()` -/
  | layout (sid : Nat)
  /-- call to `webview.sendMessage(message)` -/
  | sendMsg (sid : Nat) (message : String)
  /-- call to `webview.dispose()` on surface `sid` -/
  | dispose (sid : Nat)
  /-- call to `dispose()` on the message subscription `subId` -/
  | disposeSub (subId : Nat)
deriving DecidableEq, Repr

/-- Is the operation a `setContents` assignment? -/
def WOp.isSetContents : WOp → Bool
  | WOp.setContents _ _ => true
  | _ => false

/-- Is the operation the disposal of a surface or of a message
subscription? -/
def WOp.isDisposal : WOp → Bool
  | WOp.dispose _ => true
  | WOp.disposeSub _ => true
  | _ => false

/-- The mutable fields of a `WebviewWidget` that this excerpt reads or
writes: the current content surface (`this._webview`, `none` =
undefined), the cached HTML string (`this._html`, `none` = never set,
which is falsy), and the current message subscription
(`this._onMessageDisposable`).  `nextId` is the supply of fresh surface
identifiers. -/
structure WidgetState where
  _webview : Option Nat
  _html : Option String
  _onMessageDisposable : Option Nat
  nextId : Nat
deriving DecidableEq, Repr

/-- The state of a freshly constructed widget: no surface, no cached
HTML, no subscription. -/
def WidgetState.initial : WidgetState :=
  { _webview := none, _html := none, _onMessageDisposable := none,
    nextId := 0 }

/-- Embedding of `WebviewWidget.setHtml`:

```ts
public setHtml(html: string): void {
  this._html = html;
  if (this._webview) {
    this._webview.contents = html;
    this._webview.layout();
  }
}
``` -/
def WebviewWidget.setHtml (s : WidgetState) (html : String) :
    WidgetState × List WOp :=
  let s1 := { s with _html := some html }
  match s1._webview with
  | some w => (s1, [WOp.setContents w html, WOp.layout w])
  | none => (s1, [])

/-- Embedding of `WebviewWidget.sendMessage`:

```ts
public sendMessage(message: string): void {
  if (this._webview) {
    this._webview.sendMessage(message);
  }
}
``` -/
def WebviewWidget.sendMessage (s : WidgetState) (message : String) :
    WidgetState × List WOp :=
  match s._webview with
  | some w => (s, [WOp.sendMsg w message])
  | none => (s, [])

/-- Embedding of `WebviewWidget._createWebview`:

```ts
private _createWebview(): void {
  if (this._webview) { this._webview.dispose(); }
  if (this._onMessageDisposable) { this._onMessageDisposable.dispose(); }
  this._webview = this.instantiationService.createInstance(WebviewElement,
    this.layoutService.getContainer(Parts.EDITOR_PART), {}, { allowScripts: true });
  this._webview.mountTo(this._el.nativeElement);
  this._onMessageDisposable = this._webview.onMessage(e => { this._onMessage.fire(e); });
  this._webview.style(this.themeService.getTheme());
  if (this._html) { this._webview.contents = this._html; }
  this._webview.layout();
}
```

JavaScript truthiness: `if (this._html)` is false both when `_html` was
never assigned (undefined) and when it holds the empty string, so the
cached HTML is reapplied only when it is assigned and non-empty. -/
def WebviewWidget._createWebview (s : WidgetState) :
    WidgetState × List WOp :=
  let disposeOps :=
    (match s._webview with
     | some w => [WOp.dispose w]
     | none => []) ++
    (match s._onMessageDisposable with
     | some d => [WOp.disposeSub d]
     | none => [])
  let sid := s.nextId
  let htmlOps :=
    match s._html with
    | some h => if h = "" then [] else [WOp.setContents sid h]
    | none => []
  ({ s with _webview := some sid, _onMessageDisposable := some sid,
            nextId := sid + 1 },
   disposeOps ++
     [WOp.createSurface sid, WOp.mount sid, WOp.subscribe sid,
      WOp.style sid] ++
     htmlOps ++ [WOp.layout sid])

/-- Embedding of `WebviewWidget.ngOnInit`: registers the widget with the
dashboard view service, then creates the content surface. -/
def WebviewWidget.ngOnInit (s : WidgetState) : WidgetState × List WOp :=
  let p := WebviewWidget._createWebview s
  (p.1, WOp.registerWebview :: p.2)

/-- Model of `azdata.connection.Connection` as read by this component:
provider name, connection id, and the option bag (kept abstract as a
key/value list). -/
structure Connection where
  providerName : String
  connectionId : String
  options : List (String × String)
deriving DecidableEq, Repr

/-- Model of the connection profile held by
`dashboardService.connectionManagementService.connectionInfo.connectionProfile`:
the fields this component reads. -/
structure ConnectionProfile where
  providerName : String
  id : String
  options : List (String × String)
deriving DecidableEq, Repr

/-- Model of `azdata.ServerInfo`: treated as an abstract payload; the
component only forwards it. -/
structure ServerInfo where
  payload : String
deriving DecidableEq, Repr

/-- Model of
`dashboardService.connectionManagementService.connectionInfo`: the
connection profile and server info currently held by the dashboard-wide
service at the moment of access. -/
structure ConnectionInfo where
  connectionProfile : ConnectionProfile
  serverInfo : ServerInfo
deriving DecidableEq, Repr

/-- The body of the `connection` getter:

```ts
let currentConnection = this._dashboardService.connectionManagementService
  .connectionInfo.connectionProfile;
let connection: azdata.connection.Connection = {
  providerName: currentConnection.providerName,
  connectionId: currentConnection.id,
  options: currentConnection.options
};
return connection;
``` -/
def WebviewWidget.connectionOfProfile (currentConnection : ConnectionProfile) :
    Connection :=
  { providerName := currentConnection.providerName,
    connectionId := currentConnection.id,
    options := currentConnection.options }

/-- Modelled from the spec: the `@memoize` decorator
(`vs/base/common/decorators`, a file of this repository that is not part
of this excerpt) caches a getter's result on its first access and
returns the cached value on every subsequent access.  The cache cell is
made explicit: an access takes the current cell and the thunked getter
body, and returns the produced value together with the updated cell. -/
def memoize {α : Type} (cache : Option α) (getter : Unit → α) :
    α × Option α :=
  match cache with
  | some v => (v, some v)
  | none =>
      let v := getter ()
      (v, some v)

/-- Embedding of the memoized `connection` getter: `cache` is the
decorator's cell for this widget instance, `info` the connection info
held by the dashboard service at the moment of this access. -/
def WebviewWidget.connection (cache : Option Connection)
    (info : ConnectionInfo) : Connection × Option Connection :=
  memoize cache (fun _ => WebviewWidget.connectionOfProfile info.connectionProfile)

/-- Embedding of the memoized `serverInfo` getter. -/
def WebviewWidget.serverInfo (cache : Option ServerInfo)
    (info : ConnectionInfo) : ServerInfo × Option ServerInfo :=
  memoize cache (fun _ => info.serverInfo)

/-- Sample service whose `addAccount` rejects with `"E"`. -/
def svcAddFails : AccountManagementService :=
  { addAccount := fun _ => Except.error "E",
    removeAccount := fun _ => Except.ok true,
    refreshAccount := fun _ => Except.ok () }

/-- Sample service on which every operation resolves (`removeAccount`
resolves `true`). -/
def svcAllOk : AccountManagementService :=
  { addAccount := fun _ => Except.ok (),
    removeAccount := fun _ => Except.ok true,
    refreshAccount := fun _ => Except.ok () }

/-- Sample service whose `removeAccount` and `refreshAccount` reject
with `"boom"`. -/
def svcRemoveRefreshFail : AccountManagementService :=
  { addAccount := fun _ => Except.ok (),
    removeAccount := fun _ => Except.error "boom",
    refreshAccount := fun _ => Except.error "boom" }

/-- Sample account. -/
def acct1 : Account :=
  { key := "k1", displayInfo := { displayName := "Alice" } }

/-- C1: when `addAccount` fails with error `E`, `AddAccountAction.run`
fires "start" first, then the `addAccount` delegation happens, then
"error" fires with payload `E`, then "complete" fires, and the promise
rejects with `E`. -/
theorem addAccount_failure_events (providerId err : String)
    (svc : AccountManagementService)
    (h : svc.addAccount providerId = Except.error err) :
    AddAccountAction.run providerId svc =
      ([Ev.start, Ev.addAccountCall providerId, Ev.errorEvt err,
        Ev.complete],
       Except.error err) := by
  simp [AddAccountAction.run, h]

/-- Witness for C1 at `providerId = "azure"`, `err = "E"` and a service
whose `addAccount` rejects with `"E"`. -/
theorem addAccount_failure_events_witness :
    svcAddFails.addAccount "azure" = Except.error "E" ∧
    AddAccountAction.run "azure" svcAddFails =
      ([Ev.start, Ev.addAccountCall "azure", Ev.errorEvt "E",
        Ev.complete],
       Except.error "E") :=
  ⟨rfl, addAccount_failure_events "azure" "E" svcAddFails rfl⟩

/-- C2: when `addAccount` succeeds, `AddAccountAction.run` fires exactly
one "start" and exactly one "complete" event, "start" fires strictly
before the `addAccount` delegation begins, "complete" fires after it
settles, and the promise resolves `true`. -/
theorem addAccount_success_events (providerId : String)
    (svc : AccountManagementService)
    (h : svc.addAccount providerId = Except.ok ()) :
    (AddAccountAction.run providerId svc).1 =
      [Ev.start, Ev.addAccountCall providerId, Ev.complete] ∧
    (AddAccountAction.run providerId svc).1.count Ev.start = 1 ∧
    (AddAccountAction.run providerId svc).1.count Ev.complete = 1 ∧
    (AddAccountAction.run providerId svc).2 = Except.ok true := by
  refine ⟨by simp [AddAccountAction.run, h], ?_, ?_, by simp [AddAccountAction.run, h]⟩ <;>
    simp [AddAccountAction.run, h, List.count_cons]

/-- Witness for C2 at `providerId = "azure"` and a service whose
`addAccount` resolves. -/
theorem addAccount_success_events_witness :
    svcAllOk.addAccount "azure" = Except.ok () ∧
    (AddAccountAction.run "azure" svcAllOk).2 = Except.ok true :=
  ⟨rfl, (addAccount_success_events "azure" svcAllOk rfl).2.2.2⟩

/-- Is the event an invocation of `removeAccount`? -/
def Ev.isRemoveAccountCall : Ev → Bool
  | Ev.removeAccountCall _ => true
  | _ => false

/-- Is the event a notification? -/
def Ev.isNotifyCall : Ev → Bool
  | Ev.notifyCall _ _ => true
  | _ => false

/-- Is the event an invocation of `refreshAccount`? -/
def Ev.isRefreshAccountCall : Ev → Bool
  | Ev.refreshAccountCall _ => true
  | _ => false

/-- C3: when the dialog service resolves the confirmation to `false`,
`RemoveAccountAction.run` performs only the confirmation dialog call —
in particular `removeAccount` is never invoked — and the promise
resolves `false`. -/
theorem removeAccount_declined (account : Account)
    (svc : AccountManagementService) :
    RemoveAccountAction.run account false svc =
      ([Ev.confirmCall account.displayInfo.displayName],
       Except.ok false) ∧
    (RemoveAccountAction.run account false svc).1.countP
      Ev.isRemoveAccountCall = 0 := by
  constructor
  · simp [RemoveAccountAction.run]
  · simp [RemoveAccountAction.run, List.countP_cons, Ev.isRemoveAccountCall]

/-- C4: when the confirmation resolves `true`: if `removeAccount`
rejects, the promise resolves `false` (it does not reject) and exactly
one error notification is issued; if `removeAccount` resolves with a
boolean `b`, the promise resolves with `b`. -/
theorem removeAccount_confirmed (account : Account)
    (svc : AccountManagementService) :
    (∀ err, svc.removeAccount account.key = Except.error err →
      RemoveAccountAction.run account true svc =
        ([Ev.confirmCall account.displayInfo.displayName,
          Ev.removeAccountCall account.key,
          Ev.notifyCall Severity.error removeAccountFailedMessage],
         Except.ok false) ∧
      (RemoveAccountAction.run account true svc).1.countP
        Ev.isNotifyCall = 1) ∧
    (∀ b, svc.removeAccount account.key = Except.ok b →
      RemoveAccountAction.run account true svc =
        ([Ev.confirmCall account.displayInfo.displayName,
          Ev.removeAccountCall account.key],
         Except.ok b)) := by
  constructor
  · intro err h
    constructor
    · simp [RemoveAccountAction.run, h]
    · simp [RemoveAccountAction.run, h, List.countP_cons, Ev.isNotifyCall]
  · intro b h
    simp [RemoveAccountAction.run, h]

/-- Witness for C4 at a concrete account, one service whose
`removeAccount` rejects with `"boom"` and one whose `removeAccount`
resolves `true`. -/
theorem removeAccount_confirmed_witness :
    ((RemoveAccountAction.run acct1 true svcRemoveRefreshFail).2 =
       Except.ok false ∧
     (RemoveAccountAction.run acct1 true svcRemoveRefreshFail).1.countP
       Ev.isNotifyCall = 1) ∧
    RemoveAccountAction.run acct1 true svcAllOk =
      ([Ev.confirmCall "Alice", Ev.removeAccountCall "k1"],
       Except.ok true) :=
  ⟨⟨congrArg Prod.snd
      ((removeAccount_confirmed acct1 svcRemoveRefreshFail).1 "boom" rfl).1,
    ((removeAccount_confirmed acct1 svcRemoveRefreshFail).1 "boom" rfl).2⟩,
   (removeAccount_confirmed acct1 svcAllOk).2 true rfl⟩

/-- C5: with no account assigned, `RefreshAccountAction.run` performs no
service call at all — in particular `refreshAccount` is never invoked —
and the promise rejects with the literal message
"There is no account to refresh". -/
theorem refreshAccount_noAccount (svc : AccountManagementService) :
    RefreshAccountAction.run none svc =
      ([], Except.error "There is no account to refresh") ∧
    (RefreshAccountAction.run none svc).1.countP
      Ev.isRefreshAccountCall = 0 := by
  constructor
  · simp [RefreshAccountAction.run, noAccountToRefreshMessage]
  · simp [RefreshAccountAction.run]

/-- C6: with an account assigned, `RefreshAccountAction.run` invokes
`refreshAccount` with exactly that account; if the delegation succeeds
the promise resolves `true`, and if it fails the promise rejects with
the underlying error. -/
theorem refreshAccount_withAccount (a : Account)
    (svc : AccountManagementService) :
    (RefreshAccountAction.run (some a) svc).1 = [Ev.refreshAccountCall a] ∧
    (svc.refreshAccount a = Except.ok () →
      (RefreshAccountAction.run (some a) svc).2 = Except.ok true) ∧
    (∀ err, svc.refreshAccount a = Except.error err →
      (RefreshAccountAction.run (some a) svc).2 = Except.error err) := by
  refine ⟨?_, ?_, ?_⟩
  · cases h : svc.refreshAccount a <;> simp [RefreshAccountAction.run, h]
  · intro h; simp [RefreshAccountAction.run, h]
  · intro err h; simp [RefreshAccountAction.run, h]

/-- Witness for C6 at a concrete account, one service whose
`refreshAccount` resolves and one whose `refreshAccount` rejects with
`"boom"`. -/
theorem refreshAccount_withAccount_witness :
    (RefreshAccountAction.run (some acct1) svcAllOk).2 = Except.ok true ∧
    (RefreshAccountAction.run (some acct1) svcRemoveRefreshFail).2 =
      Except.error "boom" :=
  ⟨(refreshAccount_withAccount acct1 svcAllOk).2.1 rfl,
   (refreshAccount_withAccount acct1 svcRemoveRefreshFail).2.2 "boom" rfl⟩

/-- C7 (amended): calling `setHtml html` with a non-empty `html` while
no content surface exists performs no surface operation, and the
subsequent surface creation sets the new surface's contents to `html`
exactly once after creation, followed by a layout pass on the surface.
The non-emptiness proviso comes from the guard `if (this._html)`, which
is false for the empty string. -/
theorem setHtml_then_create (html : String) (hne : html ≠ "") :
    (WebviewWidget.setHtml WidgetState.initial html).2 = [] ∧
    (WebviewWidget._createWebview
        (WebviewWidget.setHtml WidgetState.initial html).1).2 =
      [WOp.createSurface 0, WOp.mount 0, WOp.subscribe 0, WOp.style 0,
       WOp.setContents 0 html, WOp.layout 0] ∧
    (WebviewWidget._createWebview
        (WebviewWidget.setHtml WidgetState.initial html).1).2.countP
      WOp.isSetContents = 1 := by
  refine ⟨rfl, ?_, ?_⟩ <;>
    simp [WebviewWidget.setHtml, WebviewWidget._createWebview,
      WidgetState.initial, List.countP_cons, WOp.isSetContents, hne]

/-- Counterexample to C7 as stated for every `html`: after
`setHtml ""` at the initial state, the surface creation sets the new
surface's contents zero times, not once — `if (this._html)` is false
for the empty string. -/
theorem setHtml_then_create_empty_cex :
    (WebviewWidget._createWebview
        (WebviewWidget.setHtml WidgetState.initial "").1).2 =
      [WOp.createSurface 0, WOp.mount 0, WOp.subscribe 0, WOp.style 0,
       WOp.layout 0] ∧
    (WebviewWidget._createWebview
        (WebviewWidget.setHtml WidgetState.initial "").1).2.countP
      WOp.isSetContents = 0 := by
  constructor <;> rfl

/-- Witness for C7 at the non-empty HTML string `"x"`. -/
theorem setHtml_then_create_witness :
    ("x" : String) ≠ "" ∧
    (WebviewWidget._createWebview
        (WebviewWidget.setHtml WidgetState.initial "x").1).2.countP
      WOp.isSetContents = 1 :=
  ⟨by decide, (setHtml_then_create "x" (by decide)).2.2⟩

/-- C8 (amended): every surface creation first disposes the existing
surface and the existing message subscription (when either exists) —
all disposal operations form the prefix of the trace, before the new
surface is instantiated — then performs, in order: mount, message
subscription, theme application, reapplication of the cached HTML if
present and non-empty (the guard `if (this._html)` is false for the
empty string), and a layout pass; afterwards the widget holds the
freshly created surface and its freshly created subscription. -/
theorem createWebview_ownership (s : WidgetState) :
    ((WebviewWidget._createWebview s).1)._webview = some s.nextId ∧
    ((WebviewWidget._createWebview s).1)._onMessageDisposable =
      some s.nextId ∧
    (∀ w, s._webview = some w →
      WOp.dispose w ∈
        (WebviewWidget._createWebview s).2.takeWhile WOp.isDisposal) ∧
    (∀ d, s._onMessageDisposable = some d →
      WOp.disposeSub d ∈
        (WebviewWidget._createWebview s).2.takeWhile WOp.isDisposal) ∧
    (WebviewWidget._createWebview s).2.dropWhile WOp.isDisposal =
      [WOp.createSurface s.nextId, WOp.mount s.nextId,
       WOp.subscribe s.nextId, WOp.style s.nextId] ++
      (match s._html with
       | some h => if h = "" then [] else [WOp.setContents s.nextId h]
       | none => []) ++
      [WOp.layout s.nextId] := by
  obtain ⟨w, html, d, n⟩ := s
  cases w <;> cases html <;> cases d <;>
    simp [WebviewWidget._createWebview, List.takeWhile, List.dropWhile,
      WOp.isDisposal]

/-- Counterexample to C8 as stated: at a state whose cached HTML is the
empty string, the creation trace contains no `setContents` operation at
all, so the cached HTML — although present — is not reapplied. -/
theorem createWebview_ownership_empty_cex :
    (WebviewWidget._createWebview
        { _webview := some 3, _html := some "",
          _onMessageDisposable := some 5, nextId := 7 }).2 =
      [WOp.dispose 3, WOp.disposeSub 5, WOp.createSurface 7, WOp.mount 7,
       WOp.subscribe 7, WOp.style 7, WOp.layout 7] ∧
    (WebviewWidget._createWebview
        { _webview := some 3, _html := some "",
          _onMessageDisposable := some 5, nextId := 7 }).2.countP
      WOp.isSetContents = 0 := by
  constructor <;> rfl

/-- Sample widget state holding a live surface (id 3), a cached HTML
string and a message subscription (id 5). -/
def widgetWithSurface : WidgetState :=
  { _webview := some 3, _html := some "cached",
    _onMessageDisposable := some 5, nextId := 7 }

/-- Witness for C8 at a concrete state holding surface 3 and
subscription 5: both are disposed in the prefix of the creation trace. -/
theorem createWebview_ownership_witness :
    WOp.dispose 3 ∈
      (WebviewWidget._createWebview widgetWithSurface).2.takeWhile
        WOp.isDisposal ∧
    WOp.disposeSub 5 ∈
      (WebviewWidget._createWebview widgetWithSurface).2.takeWhile
        WOp.isDisposal :=
  ⟨(createWebview_ownership widgetWithSurface).2.2.1 3 rfl,
   (createWebview_ownership widgetWithSurface).2.2.2.1 5 rfl⟩

/-- C9: `sendMessage m` forwards `m` to the content surface when one
exists, and silently does nothing — no operation, no state change —
when none exists; in both cases the widget state is unchanged. -/
theorem sendMessage_forwarding (s : WidgetState) (m : String) :
    (∀ w, s._webview = some w →
      WebviewWidget.sendMessage s m = (s, [WOp.sendMsg w m])) ∧
    (s._webview = none → WebviewWidget.sendMessage s m = (s, [])) := by
  constructor
  · intro w h
    simp [WebviewWidget.sendMessage, h]
  · intro h
    simp [WebviewWidget.sendMessage, h]

/-- Witness for C9 at a state with surface 3 and at the initial state. -/
theorem sendMessage_forwarding_witness :
    WebviewWidget.sendMessage widgetWithSurface "ping" =
      (widgetWithSurface, [WOp.sendMsg 3 "ping"]) ∧
    WebviewWidget.sendMessage WidgetState.initial "ping" =
      (WidgetState.initial, []) :=
  ⟨(sendMessage_forwarding widgetWithSurface "ping").1 3 rfl,
   (sendMessage_forwarding WidgetState.initial "ping").2 rfl⟩

/-- C10: the `connection` and `serverInfo` getters compute their value
from the connection info held by the dashboard service at the first
access and cache it; an access with a populated cache returns the cached
value unchanged, whatever the service currently holds — so every
subsequent access returns the value produced by the first one even if
the connection profile changes in between. -/
theorem connection_serverInfo_memoized (p : ConnectionInfo) :
    WebviewWidget.connection none p =
      (WebviewWidget.connectionOfProfile p.connectionProfile,
       some (WebviewWidget.connectionOfProfile p.connectionProfile)) ∧
    (∀ (c : Connection) (q : ConnectionInfo),
      WebviewWidget.connection (some c) q = (c, some c)) ∧
    (∀ (q : ConnectionInfo),
      (WebviewWidget.connection (WebviewWidget.connection none p).2 q).1 =
        (WebviewWidget.connection none p).1) ∧
    WebviewWidget.serverInfo none p = (p.serverInfo, some p.serverInfo) ∧
    (∀ (si : ServerInfo) (q : ConnectionInfo),
      WebviewWidget.serverInfo (some si) q = (si, some si)) ∧
    (∀ (q : ConnectionInfo),
      (WebviewWidget.serverInfo (WebviewWidget.serverInfo none p).2 q).1 =
        (WebviewWidget.serverInfo none p).1) :=
  ⟨rfl, fun _ _ => rfl, fun _ => rfl, rfl, fun _ _ => rfl, fun _ => rfl⟩
